import Mathlib

/-!
Shallow embedding of the hipBLASLt client benchmarking core:

* `BenchmarkTimer.cpp` (the timing controller `TensileLite::Client::BenchmarkTimer`),
  modelled as explicit state passing over the structure `BState`; member functions
  that can throw return an `Outcome`, carrying the final state of the object both
  on normal return and on throw (C++ `throw` leaves members as they were at the
  throw point).
* `Tensile/hip/HipUtils.hpp` (`CopyTensorVoid`, `CopyTensor`), modelled as
  functions computing the list of byte-level copy operations each call issues.

Machine integers (`int`, `size_t`) are modelled as `Nat` (all configured
quantities are non-negative counts); `double` quantities are modelled as `ℚ`.
-/

namespace TensileLite

namespace Client

/-- A gemm member of a contraction problem, characterised by the only attribute
the timer reads from it: its flop count (`flopCount()` returns `double`; the
counts are whole numbers, modelled as `Nat`). -/
abbrev Gemm := Nat

/-- The dynamic type of the `ContractionProblem*` held by the timer:
`ContractionProblemGemm`, `ContractionProblemGroupedGemm` (a list of gemms), or
anything else (including a null pointer), for which every `dynamic_cast` in the
timer fails. -/
inductive CProblem where
  | gemm (g : Gemm)
  | grouped (gs : List Gemm)
  | other
deriving DecidableEq, Repr

/-- The solution under measurement. The projected-performance model is an
external collaborator; the only datum the timer reads from a projection is
`granularities.tilesPerCu`, modelled as a function of the gemm the projection
is taken against. -/
structure Solution where
  tilesPerCu : Gemm → ℚ

/-- The configuration bundle parsed from `po::variables_map` in the
constructor. -/
structure Args where
  numWarmups : Nat
  syncAfterWarmups : Bool
  numBenchmarks : Nat
  numEnqueuesPerSync : Nat
  maxEnqueuesPerSync : Nat
  minFlopsPerSync : Nat
  numSyncsPerBenchmark : Nat
  useGPUTimer : Bool
  sleepPercent : Nat

/-- The member state of a `BenchmarkTimer` object.  Times are in milliseconds
(`double_millis`) except `flushTimeUs` (microseconds, as in the source).
`markersNull` models `start == nullptr && stop == nullptr` for the two
`hipEvent_t` members; `CUs` models `perf.CUs`, the hardware compute-unit
count. -/
structure BState where
  numWarmups : Nat
  syncAfterWarmups : Bool
  numBenchmarks : Nat
  numEnqueuesPerSync : Nat
  maxEnqueuesPerSync : Nat
  minFlopsPerSync : Nat
  numSyncsPerBenchmark : Nat
  numEnqueuesPerSolution : Nat
  useGPUTimer : Bool
  sleepPercent : Nat
  CUs : Nat
  flushTimeUs : ℚ
  numBenchmarksRun : Nat
  numEnqueuesInSolution : Nat
  numSyncsInBenchmark : Nat
  curNumEnqueuesPerSync : Nat
  timeInSolution : ℚ
  totalGPUTime : ℚ
  startTime : ℚ
  endTime : ℚ
  markersNull : Bool
  problem : CProblem
  solution : Solution

/-- Result of a member function call: the final member state together with the
returned value, or the final member state together with the thrown message. -/
inductive Outcome (α : Type) where
  | ok (state : BState) (val : α)
  | thrown (state : BState) (msg : String)

/-- The member state after the call, whether it returned or threw. -/
def Outcome.final {α : Type} : Outcome α → BState
  | .ok s _ => s
  | .thrown s _ => s

/-- `BenchmarkTimer::BenchmarkTimer`: copies the configuration and derives
`m_numEnqueuesPerSolution = m_numEnqueuesPerSync * m_numSyncsPerBenchmark`;
time accumulators start at zero. -/
def mkBenchmarkTimer (args : Args) (cus : Nat) (flushTimeUs : ℚ) : BState :=
  { numWarmups := args.numWarmups
    syncAfterWarmups := args.syncAfterWarmups
    numBenchmarks := args.numBenchmarks
    numEnqueuesPerSync := args.numEnqueuesPerSync
    maxEnqueuesPerSync := args.maxEnqueuesPerSync
    minFlopsPerSync := args.minFlopsPerSync
    numSyncsPerBenchmark := args.numSyncsPerBenchmark
    numEnqueuesPerSolution := args.numEnqueuesPerSync * args.numSyncsPerBenchmark
    useGPUTimer := args.useGPUTimer
    sleepPercent := args.sleepPercent
    CUs := cus
    flushTimeUs := flushTimeUs
    numBenchmarksRun := 0
    numEnqueuesInSolution := 0
    numSyncsInBenchmark := 0
    curNumEnqueuesPerSync := 0
    timeInSolution := 0
    totalGPUTime := 0
    startTime := 0
    endTime := 0
    markersNull := true
    problem := .other
    solution := ⟨fun _ => 0⟩ }

/-- `BenchmarkTimer::needMoreBenchmarkRuns`. -/
def needMoreBenchmarkRuns (s : BState) : Bool :=
  s.numBenchmarksRun < s.numBenchmarks

/-- `BenchmarkTimer::preBenchmarkRun` (no-op). -/
def preBenchmarkRun (s : BState) : BState := s

/-- `BenchmarkTimer::postBenchmarkRun`. -/
def postBenchmarkRun (s : BState) : BState :=
  { s with numBenchmarksRun := s.numBenchmarksRun + 1 }

/-- `BenchmarkTimer::preProblem`. -/
def preProblem (s : BState) (p : CProblem) : BState :=
  { s with problem := p }

/-- `BenchmarkTimer::postProblem` (no-op). -/
def postProblem (s : BState) : BState := s

/-- The gemm the dynamic-type dispatch selects: a grouped problem dispatches to
`gemms[0]`, a single problem to itself, and any other dynamic type makes the
dispatch fail (`none`).  An empty grouped problem indexes `gemms[0]` out of
range in C++; it is modelled as the failure path. -/
def dispatchGemm : CProblem → Option Gemm
  | .gemm g => some g
  | .grouped gs => gs.head?
  | .other => none

/-- The message thrown when neither `dynamic_cast` succeeds. -/
def castErrorMsg : String :=
  "[BenchmarkTimer] Failed to cast problem to any ContractionProblem."

/-- `BenchmarkTimer::preSolution`: first resets `m_numEnqueuesInSolution` and
`m_timeInSolution`, then dispatches on the problem's dynamic type to take the
projection (throwing on failure, with the counters already reset), then stores
the solution. -/
def preSolution (s : BState) (sol : Solution) : Outcome Unit :=
  let s := { s with numEnqueuesInSolution := 0, timeInSolution := 0 }
  match dispatchGemm s.problem with
  | none => .thrown s castErrorMsg
  | some _ => .ok { s with solution := sol } ()

/-- C++ `double` → `int` conversion: truncation toward zero, on `ℚ`. -/
def cppTruncToInt (q : ℚ) : ℤ := Int.tdiv q.num q.den

/-- `int tiles = pp.granularities.tilesPerCu * perf.CUs;
    int usedCus = std::min(tiles, perf.CUs);` in `postSolution`. -/
def usedCusCalc (tilesPerCu : ℚ) (cus : Nat) : ℤ :=
  min (cppTruncToInt (tilesPerCu * cus)) (cus : ℤ)

/-- The three metric values `postSolution` reports (`TimeUS`,
`SpeedGFlops`, `SpeedGFlopsPerCu`), plus the intermediate `usedCus`. -/
structure Report where
  timeUS : ℚ
  gflops : ℚ
  gflopsPerCu : ℚ
  usedCus : ℤ

/-- `BenchmarkTimer::postSolution`: computes
`timePerEnqueue_us = double_micros(m_timeInSolution).count() / m_numEnqueuesInSolution - m_flushTimeUs`
(the `double_millis` accumulator converted to µs is `1000 *` its value),
re-dispatches on the problem variant (throwing on failure, before any reset),
derives `gflops = flopCount / timePerEnqueue_us / 1000`,
`usedCus = min(int(tilesPerCu * CUs), CUs)` and `gflopsPerCu = gflops / usedCus`,
reports them, and finally resets `m_timeInSolution` and
`m_numEnqueuesInSolution` to zero. -/
def postSolution (s : BState) : Outcome Report :=
  let timePerEnqueue_us : ℚ :=
    1000 * s.timeInSolution / (s.numEnqueuesInSolution : ℚ) - s.flushTimeUs
  match dispatchGemm s.problem with
  | none => .thrown s castErrorMsg
  | some g =>
    let flopCount : ℚ := (g : ℚ)
    let gflops : ℚ := flopCount / timePerEnqueue_us / 1000
    let usedCus : ℤ := usedCusCalc (s.solution.tilesPerCu g) s.CUs
    let gflopsPerCu : ℚ := gflops / (usedCus : ℚ)
    .ok { s with timeInSolution := 0, numEnqueuesInSolution := 0 }
      { timeUS := timePerEnqueue_us
        gflops := gflops
        gflopsPerCu := gflopsPerCu
        usedCus := usedCus }

/-- `BenchmarkTimer::needMoreRunsInSolution`. -/
def needMoreRunsInSolution (s : BState) : Bool :=
  s.numEnqueuesInSolution < s.numEnqueuesPerSolution

/-- `BenchmarkTimer::numWarmupRuns`. -/
def numWarmupRuns (s : BState) : Nat := s.numWarmups

/-- `BenchmarkTimer::setNumWarmupRuns`: throws when `count < m_numWarmups`,
otherwise returns with no state change. -/
def setNumWarmupRuns (s : BState) (count : Nat) : Outcome Unit :=
  if count < s.numWarmups then
    .thrown s "Expected at least warmup runs"
  else
    .ok s ()

/-- `BenchmarkTimer::preWarmup` (no-op). -/
def preWarmup (s : BState) : BState := s

/-- `BenchmarkTimer::postWarmup` (no-op). -/
def postWarmup (s : BState) : BState := s

/-- `BenchmarkTimer::validateWarmups`: conditionally synchronizes on a device
event; no member state changes. -/
def validateWarmups (s : BState) : BState := s

/-- `BenchmarkTimer::numSyncs`. -/
def numSyncs (s : BState) : Nat := s.numSyncsPerBenchmark

/-- `BenchmarkTimer::setNumSyncs`. -/
def setNumSyncs (s : BState) (count : Nat) : BState :=
  { s with numSyncsInBenchmark := count }

/-- `BenchmarkTimer::preSyncs` (no-op). -/
def preSyncs (s : BState) : BState := s

/-- `BenchmarkTimer::postSyncs` (no-op). -/
def postSyncs (s : BState) : BState := s

/-- Modelled from the spec: `CeilDivide` (from `Tensile/Utils.hpp`, not under
`src/`) — "divide the threshold by that per-launch FLOP count using ceiling
division". -/
def ceilDivide (num den : Nat) : Nat := (num + den - 1) / den

/-- The problem flop count `numEnqueuesPerSync` computes when
`m_minFlopsPerSync > 0`: the sum over all members for a grouped problem, the
single count otherwise, failure for any other dynamic type. -/
def flopsOfProblem : CProblem → Option Nat
  | .gemm g => some g
  | .grouped gs => some gs.sum
  | .other => none

/-- `BenchmarkTimer::numEnqueuesPerSync`: when `m_minFlopsPerSync > 0`,
computes `enqueuesByFlops = CeilDivide(m_minFlopsPerSync, flopsInProblem)`
(throwing if the problem has neither supported dynamic type); returns
`min(max(m_numEnqueuesPerSync, enqueuesByFlops), m_maxEnqueuesPerSync)`. -/
def numEnqueuesPerSync (s : BState) : Outcome Nat :=
  if 0 < s.minFlopsPerSync then
    match flopsOfProblem s.problem with
    | none => .thrown s castErrorMsg
    | some flops =>
      let enqueuesByFlops := ceilDivide s.minFlopsPerSync flops
      .ok s (min (max s.numEnqueuesPerSync enqueuesByFlops) s.maxEnqueuesPerSync)
  else
    .ok s (min (max s.numEnqueuesPerSync 0) s.maxEnqueuesPerSync)

/-- `BenchmarkTimer::setNumEnqueuesPerSync`. -/
def setNumEnqueuesPerSync (s : BState) (count : Nat) : BState :=
  { s with curNumEnqueuesPerSync := count }

/-- `BenchmarkTimer::preEnqueues`: host-timer path synchronizes the device and
captures `m_startTime`; device-timer path creates the `start`/`stop` event
markers (so they are no longer null) and records `start`. -/
def preEnqueues (s : BState) (now : ℚ) : BState :=
  if s.useGPUTimer then
    { s with markersNull := false }
  else
    { s with startTime := now }

/-- `BenchmarkTimer::postEnqueues`: host-timer path synchronizes and captures
`m_endTime`; device-timer path records and waits on `stop` (no member state
change). -/
def postEnqueues (s : BState) (now : ℚ) : BState :=
  if s.useGPUTimer then s else { s with endTime := now }

/-- Which of the three measurement paths a `validateEnqueues` call executes:
the batched per-enqueue-events path (device timing, both markers null), the
single start/stop marker-pair path (device timing, a marker present), or the
host-clock path. -/
inductive TimerPath where
  | batchedEvents
  | singleMarkerPair
  | hostClock
deriving DecidableEq, Repr

/-- The path `validateEnqueues` takes, determined by `m_useGPUTimer` and by
whether `start == nullptr && stop == nullptr`. -/
def validatePath (s : BState) : TimerPath :=
  if s.useGPUTimer then
    if s.markersNull then .batchedEvents else .singleMarkerPair
  else .hostClock

/-- The elapsed time (ms) `validateEnqueues` reconciles.  `batchElapsed`
models, per start-event batch, the device-reported elapsed time between the
batch's first start event and last stop event (so its length is
`startEvents->size()`); `pairElapsed` models the device-reported elapsed time
between the single `start`/`stop` marker pair. -/
def validateTotalTime (s : BState) (batchElapsed : List ℚ) (pairElapsed : ℚ) : ℚ :=
  match validatePath s with
  | .batchedEvents => batchElapsed.sum
  | .singleMarkerPair => pairElapsed
  | .hostClock => s.endTime - s.startTime

/-- `BenchmarkTimer::validateEnqueues`: computes the elapsed time for this
batch, adds it to both `m_timeInSolution` and `m_totalGPUTime`, and increments
`m_numEnqueuesInSolution` by `startEvents->size()`.  On the single-marker-pair
path the two events are destroyed but the member pointers are not nulled, so
`markersNull` is unchanged. -/
def validateEnqueues (s : BState) (batchElapsed : List ℚ) (pairElapsed : ℚ) : BState :=
  let totalTime := validateTotalTime s batchElapsed pairElapsed
  { s with
    timeInSolution := s.timeInSolution + totalTime
    totalGPUTime := s.totalGPUTime + totalTime
    numEnqueuesInSolution := s.numEnqueuesInSolution + batchElapsed.length }

/-- `BenchmarkTimer::finalizeReport` (no-op). -/
def finalizeReport (s : BState) : BState := s

/-- Every member function of the controller that the runner can invoke, with
the external inputs it consumes; `const` queries are included (they change no
state). -/
inductive Op where
  | needMoreBenchmarkRuns
  | preBenchmarkRun
  | postBenchmarkRun
  | preProblem (p : CProblem)
  | postProblem
  | preSolution (sol : Solution)
  | postSolution
  | needMoreRunsInSolution
  | numWarmupRuns
  | setNumWarmupRuns (count : Nat)
  | preWarmup
  | postWarmup
  | validateWarmups
  | numSyncs
  | setNumSyncs (count : Nat)
  | preSyncs
  | postSyncs
  | numEnqueuesPerSync
  | setNumEnqueuesPerSync (count : Nat)
  | preEnqueues (now : ℚ)
  | postEnqueues (now : ℚ)
  | validateEnqueues (batchElapsed : List ℚ) (pairElapsed : ℚ)
  | finalizeReport
  | errorQuery

/-- The member state after invoking one controller operation (the final state
also in the throwing cases). -/
def applyOp (s : BState) : Op → BState
  | .needMoreBenchmarkRuns => s
  | .preBenchmarkRun => preBenchmarkRun s
  | .postBenchmarkRun => postBenchmarkRun s
  | .preProblem p => preProblem s p
  | .postProblem => postProblem s
  | .preSolution sol => (preSolution s sol).final
  | .postSolution => (postSolution s).final
  | .needMoreRunsInSolution => s
  | .numWarmupRuns => s
  | .setNumWarmupRuns count => (setNumWarmupRuns s count).final
  | .preWarmup => preWarmup s
  | .postWarmup => postWarmup s
  | .validateWarmups => validateWarmups s
  | .numSyncs => s
  | .setNumSyncs count => setNumSyncs s count
  | .preSyncs => preSyncs s
  | .postSyncs => postSyncs s
  | .numEnqueuesPerSync => (numEnqueuesPerSync s).final
  | .setNumEnqueuesPerSync count => setNumEnqueuesPerSync s count
  | .preEnqueues now => preEnqueues s now
  | .postEnqueues now => postEnqueues s now
  | .validateEnqueues be pe => validateEnqueues s be pe
  | .finalizeReport => finalizeReport s
  | .errorQuery => s

/-- The physical side conditions on an operation's external inputs: device
event elapsed times are non-negative, and — the clock being steady and
`postEnqueues` following `preEnqueues` — the host end timestamp is not before
the start timestamp.  `True` for every operation that consumes no elapsed
time. -/
def elapsedInputsOk (s : BState) : Op → Prop
  | .validateEnqueues be pe =>
      (∀ q ∈ be, 0 ≤ q) ∧ 0 ≤ pe ∧ s.startTime ≤ s.endTime
  | _ => True

end Client

namespace hip

/-- The geometry of a `TensorDescriptor` as the copy utilities read it.
Modelled from the spec: `TensorDescriptor` (not under `src/`) — a problem
description by "shapes, strides, types"; `dimensions()` is the number of
sizes, `totalLogicalElements()` their product, `index(coord)` the
stride-weighted linear offset, `elementBytes()` the byte width of one
element. -/
structure TensorDesc where
  sizes : List Nat
  strides : List Nat
  elementBytes : Nat
deriving DecidableEq, Repr

/-- `desc.dimensions()`. -/
def TensorDesc.dimensions (d : TensorDesc) : Nat := d.sizes.length

/-- `desc.totalLogicalElements()`: the product of the sizes. -/
def TensorDesc.totalLogicalElements (d : TensorDesc) : Nat := d.sizes.prod

/-- `desc.index(coord)`: the stride-weighted linear element offset. -/
def TensorDesc.index (d : TensorDesc) (coord : List Nat) : Nat :=
  (List.zipWith (· * ·) coord d.strides).sum

/-- Modelled from the spec: `CoordCount` (from `Tensile/Utils.hpp`, not under
`src/`) — the number of coordinates spanned by a size range, i.e. the product
of the sizes. -/
def coordCount (sizes : List Nat) : Nat := sizes.prod

/-- Modelled from the spec: `CoordNumbered` (from `Tensile/Utils.hpp`, not
under `src/`) — the `idx`-th coordinate in the mixed-radix (first dimension
fastest) enumeration of the given size range. -/
def coordNumbered (idx : Nat) : List Nat → List Nat
  | [] => []
  | z :: zs => (idx % z) :: coordNumbered (idx / z) zs

/-- The `contiguousDimensions` loop shared by `CopyTensorVoid` and
`CopyTensor`: scans dimensions in order, stopping at the first whose stride
exceeds the expected contiguous stride; `e` is the running
`expectedStride`. -/
def contiguousDims : List Nat → List Nat → Nat → Nat
  | stride :: ss, size :: zs, e =>
      if stride > e then 0 else 1 + contiguousDims ss zs (stride * size)
  | _, _, _ => 0

/-- One `hipMemcpyAsync(dstBytes, srcBytes, copyBytes, ...)` call, with
byte-granularity addresses. -/
structure CopyOp where
  dstAddr : Nat
  srcAddr : Nat
  bytes : Nat
deriving DecidableEq, Repr

/-- The per-copy source/destination byte offset for linear index `idx`:
`desc.elementBytes() * desc.index(coord)` where `coord` is zero on the
coalesced contiguous dimensions and `CoordNumbered(idx, ...)` beyond them. -/
def copyOffset (d : TensorDesc) (cd idx : Nat) : Nat :=
  d.elementBytes * d.index (List.replicate cd 0 ++ coordNumbered idx (d.sizes.drop cd))

/-- The value of the `contiguousDimensions` loop for a descriptor, starting
from `expectedStride = 1`. -/
def TensorDesc.contiguousDimensions (d : TensorDesc) : Nat :=
  contiguousDims d.strides d.sizes 1

/-- `copyCount = CoordCount(sizes.begin() + contiguousDimensions, sizes.end())`. -/
def copyCountOf (d : TensorDesc) (cd : Nat) : Nat := coordCount (d.sizes.drop cd)

/-- `copyBytes = maxStride * sizes.at(contiguousDimensions - 1) * elementBytes`
where `maxStride` is the largest stride among the coalesced contiguous
dimensions. -/
def copyBytesOf (d : TensorDesc) (cd : Nat) : Nat :=
  ((d.strides.take cd).foldr max 0) * d.sizes.getD (cd - 1) 0 * d.elementBytes

/-- The copy operations `CopyTensorVoid(dst, src, desc, ...)` issues, `none`
when the call fails before issuing them (with `contiguousDimensions == 0`,
`sizes.at(contiguousDimensions - 1)` throws `std::out_of_range` and
`*std::max_element(strides.begin(), strides.begin())` is invalid).  Both the
destination and the source address of every copy are computed from `dst`
(`uint8_t* srcBytes = (uint8_t*)dst + bytesOffset;` in the source); the `src`
argument is never read. -/
def CopyTensorVoid (dst src : Nat) (d : TensorDesc) : Option (List CopyOp) :=
  if d.dimensions = 0 ∨ d.totalLogicalElements = 0 then
    some []
  else if d.contiguousDimensions = 0 then
    none
  else
    some ((List.range (copyCountOf d d.contiguousDimensions)).map fun idx =>
      { dstAddr := dst + copyOffset d d.contiguousDimensions idx
        srcAddr := dst + copyOffset d d.contiguousDimensions idx
        bytes := copyBytesOf d d.contiguousDimensions })

/-- The copy operations the typed `CopyTensor<T>(dst, src, desc, ...)` issues,
at byte granularity (`sizeof(T)` agrees with `desc.elementBytes()` for a
well-typed call): each copy reads from `src + beginOffset` and writes to
`dst + beginOffset`. -/
def CopyTensor (dst src : Nat) (d : TensorDesc) : Option (List CopyOp) :=
  if d.dimensions = 0 ∨ d.totalLogicalElements = 0 then
    some []
  else if d.contiguousDimensions = 0 then
    none
  else
    some ((List.range (copyCountOf d d.contiguousDimensions)).map fun idx =>
      { dstAddr := dst + copyOffset d d.contiguousDimensions idx
        srcAddr := src + copyOffset d d.contiguousDimensions idx
        bytes := copyBytesOf d d.contiguousDimensions })

/-- Byte-addressable memory. -/
def Mem : Type := Nat → Nat

/-- The effect of one `hipMemcpyAsync` copy on memory. -/
def applyCopy (mem : Mem) (op : CopyOp) : Mem := fun a =>
  if op.dstAddr ≤ a ∧ a < op.dstAddr + op.bytes then
    mem (op.srcAddr + (a - op.dstAddr))
  else
    mem a

/-- The effect of a sequence of copies, issued in order. -/
def runCopies (mem : Mem) : List CopyOp → Mem
  | [] => mem
  | op :: ops => runCopies (applyCopy mem op) ops

end hip

namespace Client

/-- A sample configuration: 3 warmups, sync-after-warmups, 1 benchmark,
4 enqueues-per-sync (floor), 1000 max enqueues-per-sync (ceiling),
1,000,000 min-FLOPs-per-sync, 5 syncs-per-benchmark, GPU timer, no sleep. -/
def exArgs : Args :=
  { numWarmups := 3
    syncAfterWarmups := true
    numBenchmarks := 1
    numEnqueuesPerSync := 4
    maxEnqueuesPerSync := 1000
    minFlopsPerSync := 1000000
    numSyncsPerBenchmark := 5
    useGPUTimer := true
    sleepPercent := 0 }

/-- A freshly constructed timer over `exArgs` with 64 compute units and no
flush-time offset. -/
def baseState : BState := mkBenchmarkTimer exArgs 64 0

/-- `Int.tdiv` agrees with the mathematical floor on non-negative rationals
(a non-negative C++ `double` truncates to its floor). -/
theorem cppTruncToInt_eq_floor {q : ℚ} (h : 0 ≤ q) : cppTruncToInt q = ⌊q⌋ := by
  have hnum : 0 ≤ q.num := Rat.num_nonneg.mpr h
  have h2 : ⌊q⌋ = q.num / (q.den : ℤ) := by
    conv_lhs => rw [← Rat.num_div_den q]
    exact Rat.floor_intCast_div_natCast q.num q.den
  unfold cppTruncToInt
  rw [h2, Int.tdiv_eq_ediv hnum (by positivity)]

/-- C1: for every active problem of a supported variant (with positive flop
count) and every configuration, `numEnqueuesPerSync()` returns, unthrown and
without changing state,
`min(max(configured-floor, enqueues-by-flops), configured-ceiling)` where
`enqueues-by-flops = ceilDivide(min-FLOPs-per-sync, problem-flops)` when
`min-FLOPs-per-sync > 0` and `0` otherwise; moreover `ceilDivide` is exact
ceiling division: `enqueues-by-flops` is the unique `q` with
`min-FLOPs ≤ flops * q < min-FLOPs + flops`. -/
theorem numEnqueuesPerSync_clamped (s : BState) (flops : Nat)
    (hp : flopsOfProblem s.problem = some flops) (hf : 0 < flops) :
    numEnqueuesPerSync s = .ok s (min (max s.numEnqueuesPerSync
        (if 0 < s.minFlopsPerSync then ceilDivide s.minFlopsPerSync flops else 0))
        s.maxEnqueuesPerSync)
    ∧ (0 < s.minFlopsPerSync →
        s.minFlopsPerSync ≤ flops * ceilDivide s.minFlopsPerSync flops
          ∧ flops * ceilDivide s.minFlopsPerSync flops < s.minFlopsPerSync + flops) := by
  constructor
  · by_cases hm : 0 < s.minFlopsPerSync
    · simp [numEnqueuesPerSync, hp, hm]
    · simp [numEnqueuesPerSync, hp, hm]
  · intro hm
    unfold ceilDivide
    have h := Nat.div_add_mod (s.minFlopsPerSync + flops - 1) flops
    have h2 : (s.minFlopsPerSync + flops - 1) % flops < flops :=
      Nat.mod_lt _ hf
    generalize hq : (s.minFlopsPerSync + flops - 1) / flops = q at h ⊢
    generalize hr : (s.minFlopsPerSync + flops - 1) % flops = r at h h2
    generalize hP : flops * q = P at h ⊢
    omega

/-- Witness for C1: over `exArgs` (floor 4, ceiling 1000, min-FLOPs 1,000,000)
with a 100,000-FLOP problem, `numEnqueuesPerSync` returns
`max(4, ceil(1000000/100000)) = max(4, 10) = 10`. -/
theorem numEnqueuesPerSync_clamped_witness :
    flopsOfProblem (preProblem baseState (.gemm 100000)).problem = some 100000
    ∧ 0 < 100000
    ∧ numEnqueuesPerSync (preProblem baseState (.gemm 100000))
        = .ok (preProblem baseState (.gemm 100000)) 10 := by
  refine ⟨rfl, by norm_num, ?_⟩
  have h := numEnqueuesPerSync_clamped (preProblem baseState (.gemm 100000))
    100000 rfl (by norm_num)
  rw [h.1]
  rfl

/-- C7: the constructor derives
`m_numEnqueuesPerSolution = m_numEnqueuesPerSync * m_numSyncsPerBenchmark`
exactly, and `needMoreRunsInSolution()` is true iff
`m_numEnqueuesInSolution < m_numEnqueuesPerSolution`. -/
theorem enqueues_per_solution_target (args : Args) (cus : Nat) (flush : ℚ)
    (s : BState) :
    (mkBenchmarkTimer args cus flush).numEnqueuesPerSolution
        = args.numEnqueuesPerSync * args.numSyncsPerBenchmark
    ∧ (needMoreRunsInSolution s = true ↔
        s.numEnqueuesInSolution < s.numEnqueuesPerSolution) := by
  exact ⟨rfl, by simp [needMoreRunsInSolution]⟩

/-- Witness for C7: over `exArgs`, the derived target is `4 * 5 = 20` and a
fresh timer (0 enqueues so far) still needs runs. -/
theorem enqueues_per_solution_target_witness :
    baseState.numEnqueuesPerSolution = 20
    ∧ needMoreRunsInSolution baseState = true := by
  have h := enqueues_per_solution_target exArgs 64 0 baseState
  exact ⟨h.1, h.2.mpr (by norm_num [baseState, mkBenchmarkTimer, exArgs])⟩

/-- C8: `setNumWarmupRuns(count)` throws exactly when
`count < m_numWarmups`, and returns with the state unchanged when
`count >= m_numWarmups`. -/
theorem setNumWarmupRuns_contract (s : BState) (count : Nat) :
    ((∃ msg, setNumWarmupRuns s count = .thrown s msg) ↔ count < s.numWarmups)
    ∧ (s.numWarmups ≤ count → setNumWarmupRuns s count = .ok s ()) := by
  by_cases hc : count < s.numWarmups
  · constructor
    · simp [setNumWarmupRuns, hc]
    · intro h
      omega
  · constructor
    · simp [setNumWarmupRuns, hc]
    · intro _
      simp [setNumWarmupRuns, hc]

/-- Witness for C8: with 3 configured warmups, reporting 2 throws and
reporting 3 succeeds without changing the state. -/
theorem setNumWarmupRuns_contract_witness :
    (∃ msg, setNumWarmupRuns baseState 2 = .thrown baseState msg)
    ∧ (3 ≤ baseState.numWarmups → True)
    ∧ setNumWarmupRuns baseState 3 = .ok baseState () := by
  refine ⟨?_, fun _ => trivial, ?_⟩
  · exact (setNumWarmupRuns_contract baseState 2).1.mpr (by norm_num [baseState, mkBenchmarkTimer, exArgs])
  · exact (setNumWarmupRuns_contract baseState 3).2 (by norm_num [baseState, mkBenchmarkTimer, exArgs])

/-- C2: under the precondition that at least one enqueue batch ran and the
active problem is a supported variant, `postSolution()` returns (unthrown) and
reports `timeUS = accumulated-solution-time-µs / enqueues-in-solution −
flush-time-offset` (the `double_millis` accumulator is `1000 ×` smaller than
its µs reading), `gflops = flopCount / timeUS / 1000` and
`gflopsPerCu = gflops / usedCus`. -/
theorem postSolution_metrics (s : BState) (g : Gemm)
    (hg : dispatchGemm s.problem = some g)
    (hn : 1 ≤ s.numEnqueuesInSolution) :
    ∃ s' r, postSolution s = .ok s' r
    ∧ r.timeUS
        = 1000 * s.timeInSolution / (s.numEnqueuesInSolution : ℚ) - s.flushTimeUs
    ∧ r.gflops = (g : ℚ) / r.timeUS / 1000
    ∧ r.gflopsPerCu = r.gflops / (r.usedCus : ℚ) := by
  simp only [postSolution, hg]
  exact ⟨_, _, rfl, rfl, rfl, rfl⟩

/-- A timer state about to finish a solution: a 2·10⁹-FLOP problem, one
enqueue in the solution, 0.5 ms accumulated (500 µs), no flush offset, and a
projected `tilesPerCu` of 2 on 64 compute units. -/
def sC2 : BState :=
  { baseState with
    problem := .gemm 2000000000
    numEnqueuesInSolution := 1
    timeInSolution := 1/2
    solution := ⟨fun _ => 2⟩ }

/-- Witness for C2: on `sC2`, `timeUS = 500` and
`gflops = 2·10⁹ / 500 / 1000 = 4000`. -/
theorem postSolution_metrics_witness :
    dispatchGemm sC2.problem = some 2000000000
    ∧ 1 ≤ sC2.numEnqueuesInSolution
    ∧ ∃ s' r, postSolution sC2 = .ok s' r ∧ r.timeUS = 500 ∧ r.gflops = 4000 := by
  refine ⟨rfl, by norm_num [sC2, baseState, mkBenchmarkTimer, exArgs], ?_⟩
  obtain ⟨s', r, h1, h2, h3, _⟩ :=
    postSolution_metrics sC2 2000000000 rfl
      (by norm_num [sC2, baseState, mkBenchmarkTimer, exArgs])
  have ht : r.timeUS = 500 := by
    rw [h2]; norm_num [sC2, baseState, mkBenchmarkTimer, exArgs]
  refine ⟨s', r, h1, ht, ?_⟩
  rw [h3, ht]
  norm_num

/-- Helper: for a non-negative tiles-per-CU ratio, the code's `usedCus`
computation is `min(⌊tilesPerCu * CUs⌋, CUs)`. -/
theorem usedCusCalc_eq_floor {t : ℚ} (h : 0 ≤ t) (c : Nat) :
    usedCusCalc t c = min ⌊t * (c : ℚ)⌋ (c : ℤ) := by
  unfold usedCusCalc
  rw [cppTruncToInt_eq_floor (mul_nonneg h (by positivity))]

/-- C3 counterexample: at `tilesPerCu = 1/2` and 63 compute units the code
computes `usedCus = min(int(0.5 * 63), 63) = min(31, 63) = 31`, whereas
`min(tilesPerCu × CUs, CUs) = min(31.5, 63) = 31.5 ≠ 31`: the claimed identity
fails for fractional tile counts because the C++ assigns
`tilesPerCu * perf.CUs` to an `int` first. -/
theorem usedCus_fractional_counterexample :
    usedCusCalc (1/2 : ℚ) 63 = 31
    ∧ ((usedCusCalc (1/2 : ℚ) 63 : ℚ) ≠ min ((1/2 : ℚ) * 63) 63) := by
  have he : usedCusCalc (1/2 : ℚ) 63 = 31 := by
    rw [usedCusCalc_eq_floor (by norm_num) 63]
    norm_num
  refine ⟨he, ?_⟩
  rw [he]
  norm_num

/-- C3 amended: `postSolution()` computes
`usedCus = min(trunc(tilesPerCu × CUs), CUs)` — the product truncated toward
zero by the `double`-to-`int` conversion (for non-negative `tilesPerCu`, its
floor); the claim's worked examples hold: `tilesPerCu = 2` on 64 CUs gives 64
and `tilesPerCu = 1/2` on 64 CUs gives 32. -/
theorem postSolution_usedCus_trunc (s : BState) (g : Gemm)
    (hg : dispatchGemm s.problem = some g)
    (ht : 0 ≤ s.solution.tilesPerCu g) :
    (∃ s' r, postSolution s = .ok s' r
      ∧ r.usedCus = min ⌊s.solution.tilesPerCu g * (s.CUs : ℚ)⌋ (s.CUs : ℤ))
    ∧ usedCusCalc 2 64 = 64 ∧ usedCusCalc (1/2 : ℚ) 64 = 32 := by
  refine ⟨?_, ?_, ?_⟩
  · simp only [postSolution, hg]
    exact ⟨_, _, rfl, usedCusCalc_eq_floor ht s.CUs⟩
  · rw [usedCusCalc_eq_floor (by norm_num) 64]
    norm_num
  · rw [usedCusCalc_eq_floor (by norm_num) 64]
    norm_num

/-- A timer state whose solution projects `tilesPerCu = 1/2` on 64 compute
units. -/
def sC3 : BState :=
  { sC2 with solution := ⟨fun _ => 1/2⟩ }

/-- Witness for C3 (amended): on `sC3`, `postSolution` reports
`usedCus = min(⌊(1/2) * 64⌋, 64) = 32`. -/
theorem postSolution_usedCus_trunc_witness :
    dispatchGemm sC3.problem = some 2000000000
    ∧ 0 ≤ sC3.solution.tilesPerCu 2000000000
    ∧ ∃ s' r, postSolution sC3 = .ok s' r ∧ r.usedCus = 32 := by
  refine ⟨rfl, by norm_num [sC3, sC2], ?_⟩
  obtain ⟨⟨s', r, h1, h2⟩, _, _⟩ :=
    postSolution_usedCus_trunc sC3 2000000000 rfl (by norm_num [sC3, sC2])
  refine ⟨s', r, h1, ?_⟩
  rw [h2]
  have hc : sC3.CUs = 64 := rfl
  have htval : sC3.solution.tilesPerCu 2000000000 = 1/2 := rfl
  rw [hc, htval]
  norm_num

/-- A timer state holding a problem of neither supported dynamic type, with
non-zero solution accumulators. -/
def sBadProblem : BState :=
  { baseState with problem := .other, timeInSolution := 5, numEnqueuesInSolution := 7 }

/-- C4 counterexample: when `postSolution()` exits by throwing the
problem-variant type-mismatch error, the accumulators are NOT reset — on
`sBadProblem` the call throws and leaves `m_timeInSolution = 5` and
`m_numEnqueuesInSolution = 7` (the resets sit after the `throw`). -/
theorem postSolution_throw_keeps_accumulators :
    postSolution sBadProblem = .thrown sBadProblem castErrorMsg
    ∧ (postSolution sBadProblem).final.timeInSolution = 5
    ∧ (postSolution sBadProblem).final.numEnqueuesInSolution = 7
    ∧ ¬((postSolution sBadProblem).final.timeInSolution = 0
        ∧ (postSolution sBadProblem).final.numEnqueuesInSolution = 0) := by
  refine ⟨rfl, rfl, rfl, ?_⟩
  rintro ⟨h1, -⟩
  have h5 : (5 : ℚ) = 0 := h1
  norm_num at h5

/-- C4 amended: after every `postSolution()` call that returns normally,
`m_timeInSolution = 0` and `m_numEnqueuesInSolution = 0`; when it throws, the
member state is left exactly as it was (in particular the accumulators are
not reset); and `preSolution()` resets both counters at its start, whether it
returns or throws. -/
theorem solution_accumulators_reset (s s' : BState) (r : Report)
    (sol : Solution) (m : String) :
    (postSolution s = .ok s' r →
      s'.timeInSolution = 0 ∧ s'.numEnqueuesInSolution = 0)
    ∧ (postSolution s = .thrown s' m → s' = s)
    ∧ ((preSolution s sol).final.timeInSolution = 0
        ∧ (preSolution s sol).final.numEnqueuesInSolution = 0) := by
  refine ⟨?_, ?_, ?_⟩
  · intro h
    cases hd : dispatchGemm s.problem with
    | none => simp [postSolution, hd] at h
    | some g =>
      simp [postSolution, hd] at h
      obtain ⟨hs, -⟩ := h
      rw [← hs]
      exact ⟨rfl, rfl⟩
  · intro h
    cases hd : dispatchGemm s.problem with
    | none =>
      simp [postSolution, hd] at h
      exact h.1.symm
    | some g => simp [postSolution, hd] at h
  · cases hd : dispatchGemm s.problem with
    | none => simp [preSolution, Outcome.final, hd]
    | some g => simp [preSolution, Outcome.final, hd]

/-- Witness for C4 (amended): on `sC2`, `postSolution` returns normally and
the returned state has both accumulators at zero; `preSolution` on
`sBadProblem` leaves both counters zero even though it throws. -/
theorem solution_accumulators_reset_witness :
    (∃ s' r, postSolution sC2 = .ok s' r
      ∧ s'.timeInSolution = 0 ∧ s'.numEnqueuesInSolution = 0)
    ∧ (preSolution sBadProblem ⟨fun _ => 0⟩).final.timeInSolution = 0
    ∧ (preSolution sBadProblem ⟨fun _ => 0⟩).final.numEnqueuesInSolution = 0 := by
  constructor
  · obtain ⟨s', r, h1, -, -, -⟩ := postSolution_metrics sC2 2000000000 rfl
      (by norm_num [sC2, baseState, mkBenchmarkTimer, exArgs])
    exact ⟨s', r, h1,
      (solution_accumulators_reset sC2 s' r ⟨fun _ => 0⟩ "").1 h1⟩
  · exact (solution_accumulators_reset sBadProblem sBadProblem
      ⟨0, 0, 0, 0⟩ ⟨fun _ => 0⟩ "").2.2

/-- C5: every `validateEnqueues()` call adds one and the same elapsed value to
both `m_timeInSolution` and `m_totalGPUTime` and increments
`m_numEnqueuesInSolution` by exactly the number of start-event batches; and
under the physical side condition that measured elapsed times are
non-negative, no operation of the controller decreases (in particular resets)
`m_totalGPUTime`. -/
theorem validateEnqueues_accumulates (s : BState) (be : List ℚ) (pe : ℚ)
    (op : Op) (hop : elapsedInputsOk s op) :
    (∃ t, validateEnqueues s be pe
        = { s with
            timeInSolution := s.timeInSolution + t
            totalGPUTime := s.totalGPUTime + t
            numEnqueuesInSolution := s.numEnqueuesInSolution + be.length })
    ∧ s.totalGPUTime ≤ (applyOp s op).totalGPUTime := by
  constructor
  · exact ⟨validateTotalTime s be pe, rfl⟩
  · cases op with
    | preSolution sol =>
      unfold applyOp preSolution
      cases hd : dispatchGemm s.problem <;> simp [hd, Outcome.final]
    | postSolution =>
      unfold applyOp postSolution
      cases hd : dispatchGemm s.problem <;> simp [hd, Outcome.final]
    | setNumWarmupRuns count =>
      unfold applyOp setNumWarmupRuns
      by_cases hc : count < s.numWarmups <;> simp [hc, Outcome.final]
    | numEnqueuesPerSync =>
      unfold applyOp numEnqueuesPerSync
      by_cases hm : 0 < s.minFlopsPerSync
      · cases hd : flopsOfProblem s.problem <;> simp [hm, hd, Outcome.final]
      · simp [hm, Outcome.final]
    | validateEnqueues be' pe' =>
      obtain ⟨hbe, hpe, hse⟩ := hop
      unfold applyOp validateEnqueues validateTotalTime validatePath
      have hsum : 0 ≤ List.sum be' := List.sum_nonneg hbe
      by_cases hg : s.useGPUTimer <;> by_cases hmk : s.markersNull <;>
        simp [hg, hmk] <;> linarith
    | preEnqueues now =>
      unfold applyOp preEnqueues
      by_cases hg : s.useGPUTimer <;> simp [hg]
    | postEnqueues now =>
      unfold applyOp postEnqueues
      by_cases hg : s.useGPUTimer <;> simp [hg]
    | _ =>
      simp [applyOp, preBenchmarkRun, postBenchmarkRun, preProblem, postProblem,
        preWarmup, postWarmup, validateWarmups, setNumSyncs, preSyncs, postSyncs,
        setNumEnqueuesPerSync, finalizeReport]

/-- Witness for C5: on a fresh timer, a `validateEnqueues` with one batch of
elapsed time 2 ms satisfies the side condition and does not decrease the
lifetime total. -/
theorem validateEnqueues_accumulates_witness :
    elapsedInputsOk baseState (.validateEnqueues [2] 0)
    ∧ baseState.totalGPUTime
        ≤ (applyOp baseState (.validateEnqueues [2] 0)).totalGPUTime := by
  have hop : elapsedInputsOk baseState (.validateEnqueues [2] 0) := by
    refine ⟨?_, le_refl 0, le_refl 0⟩
    intro q hq
    simp only [List.mem_singleton] at hq
    rw [hq]
    norm_num
  exact ⟨hop, (validateEnqueues_accumulates baseState [2] 0 _ hop).2⟩

/-- C6: under device (GPU) timing, each `validateEnqueues()` call executes
exactly one of the batched per-enqueue-events path and the single
start/stop-marker-pair path: the path is `batchedEvents` iff both markers are
null and `singleMarkerPair` otherwise, the batched path sums the per-batch
elapsed times, and the marker-pair path takes the single pair's elapsed
time. -/
theorem gpu_timer_paths_exclusive (s : BState) (h : s.useGPUTimer = true) :
    ((validatePath s = .batchedEvents ∨ validatePath s = .singleMarkerPair)
      ∧ ¬(validatePath s = .batchedEvents ∧ validatePath s = .singleMarkerPair))
    ∧ (validatePath s = .batchedEvents ↔ s.markersNull = true)
    ∧ (∀ be pe, validatePath s = .batchedEvents →
        validateTotalTime s be pe = be.sum)
    ∧ (∀ be pe, validatePath s = .singleMarkerPair →
        validateTotalTime s be pe = pe) := by
  unfold validateTotalTime validatePath
  cases hmk : s.markersNull <;> simp [h, hmk]

/-- Witness for C6: a fresh GPU-timing state (markers null) takes the
batched-events path and sums the batch elapsed times. -/
theorem gpu_timer_paths_exclusive_witness :
    baseState.useGPUTimer = true
    ∧ validatePath baseState = .batchedEvents
    ∧ validateTotalTime baseState [3, 4] 9 = 7 := by
  have h := gpu_timer_paths_exclusive baseState rfl
  refine ⟨rfl, rfl, ?_⟩
  rw [h.2.2.1 [3, 4] 9 rfl]
  norm_num

end Client

namespace hip

/-- C9: in `CopyTensorVoid` the source address of every issued copy equals
its destination address (both are `dst + bytesOffset`), so the `src` argument
never influences the issued copies; consequently, whenever at least one copy
is issued and `src ≠ dst`, `CopyTensorVoid` issues different copies than the
typed `CopyTensor`, which reads from `src + beginOffset`. -/
theorem copyTensorVoid_defect (dst src src2 : Nat) (d : TensorDesc)
    (ops : List CopyOp) (hops : CopyTensorVoid dst src d = some ops)
    (hne : ops ≠ []) (hsd : src ≠ dst) :
    (∀ op ∈ ops, op.srcAddr = op.dstAddr)
    ∧ CopyTensorVoid dst src d = CopyTensorVoid dst src2 d
    ∧ CopyTensorVoid dst src d ≠ CopyTensor dst src d := by
  refine ⟨?_, rfl, ?_⟩
  · unfold CopyTensorVoid at hops
    by_cases h1 : d.dimensions = 0 ∨ d.totalLogicalElements = 0
    · rw [if_pos h1] at hops
      injection hops with h
      subst h
      exact absurd rfl hne
    · rw [if_neg h1] at hops
      by_cases h2 : d.contiguousDimensions = 0
      · rw [if_pos h2] at hops
        exact Option.noConfusion hops
      · rw [if_neg h2] at hops
        injection hops with h
        subst h
        intro op hop
        simp only [List.mem_map] at hop
        obtain ⟨idx, -, rfl⟩ := hop
        rfl
  · intro heq
    unfold CopyTensorVoid CopyTensor at heq
    unfold CopyTensorVoid at hops
    by_cases h1 : d.dimensions = 0 ∨ d.totalLogicalElements = 0
    · rw [if_pos h1] at hops
      injection hops with h
      subst h
      exact hne rfl
    · rw [if_neg h1] at hops
      by_cases h2 : d.contiguousDimensions = 0
      · rw [if_pos h2] at hops
        exact Option.noConfusion hops
      · rw [if_neg h2] at hops
        simp only [if_neg h1, if_neg h2] at heq
        injection heq with h
        have hn0 : copyCountOf d d.contiguousDimensions ≠ 0 := by
          intro h0
          injection hops with h'
          rw [h0] at h'
          exact hne h'.symm
        have hpos : 0 < copyCountOf d d.contiguousDimensions :=
          Nat.pos_of_ne_zero hn0
        have hlen : (0 : Nat) <
            ((List.range (copyCountOf d d.contiguousDimensions)).map fun idx =>
              ({ dstAddr := dst + copyOffset d d.contiguousDimensions idx
                 srcAddr := dst + copyOffset d d.contiguousDimensions idx
                 bytes := copyBytesOf d d.contiguousDimensions } : CopyOp)).length := by
          simpa using hpos
        have h0 := List.getElem_of_eq h hlen
        simp only [List.getElem_map, List.getElem_range] at h0
        have hsrc : dst + copyOffset d d.contiguousDimensions 0
            = src + copyOffset d d.contiguousDimensions 0 :=
          congrArg CopyOp.srcAddr h0
        exact hsd (Nat.add_right_cancel hsrc.symm)

/-- A 1-D contiguous descriptor: two elements of 4 bytes, stride 1. -/
def exDesc : TensorDesc := { sizes := [2], strides := [1], elementBytes := 4 }

/-- Witness for C9: on `exDesc` with `dst = 100`, `src = 0`, `CopyTensorVoid`
issues exactly one copy — whose source address is the destination address
`100`, not `0` — and differs from `CopyTensor`. -/
theorem copyTensorVoid_defect_witness :
    CopyTensorVoid 100 0 exDesc = some [{ dstAddr := 100, srcAddr := 100, bytes := 8 }]
    ∧ ([{ dstAddr := 100, srcAddr := 100, bytes := 8 }] : List CopyOp) ≠ []
    ∧ (0 : Nat) ≠ 100
    ∧ CopyTensorVoid 100 0 exDesc ≠ CopyTensor 100 0 exDesc := by
  refine ⟨by decide, by decide, by decide, ?_⟩
  exact (copyTensorVoid_defect 100 0 7 exDesc
    [{ dstAddr := 100, srcAddr := 100, bytes := 8 }]
    (by decide) (by decide) (by decide)).2.2

/-- C10: for a descriptor with zero dimensions or zero total logical
elements, both `CopyTensorVoid` and `CopyTensor` return immediately with no
copy issued, and running an empty copy list leaves every byte of memory (in
particular the destination buffer) unchanged. -/
theorem copy_empty_tensor_noop (dst src : Nat) (d : TensorDesc) (mem : Mem)
    (h : d.dimensions = 0 ∨ d.totalLogicalElements = 0) :
    CopyTensorVoid dst src d = some []
    ∧ CopyTensor dst src d = some []
    ∧ runCopies mem [] = mem := by
  refine ⟨?_, ?_, rfl⟩
  · unfold CopyTensorVoid
    rw [if_pos h]
  · unfold CopyTensor
    rw [if_pos h]

/-- Witness for C10: a zero-dimensional descriptor makes both copy routines
no-ops, and memory at address 5 is untouched. -/
theorem copy_empty_tensor_noop_witness :
    ((⟨[], [], 4⟩ : TensorDesc).dimensions = 0
      ∨ (⟨[], [], 4⟩ : TensorDesc).totalLogicalElements = 0)
    ∧ CopyTensorVoid 9 3 ⟨[], [], 4⟩ = some []
    ∧ CopyTensor 9 3 ⟨[], [], 4⟩ = some []
    ∧ runCopies (fun _ => 7) [] 5 = 7 := by
  have h := copy_empty_tensor_noop 9 3 ⟨[], [], 4⟩ (fun _ => 7) (Or.inl rfl)
  exact ⟨Or.inl rfl, h.1, h.2.1, congrFun h.2.2 5⟩

end hip

end TensileLite
